import Mathlib

/-!
# Verification of the bosuoyun download-pipeline core (`main_gui.py`)

Shallow embedding of the pipeline logic of `main_gui.py`:
the Settings Store (`ConfigManager.load_settings`), the History Ledger
(`ConfigManager.add_history`), the Remote Catalog Client
(`PlasoAPIClient.get_course_list`, `get_task_list`, `validate_token`),
the Media Fetcher's progress parsing (`DownloadManager.download_video`),
the Download Orchestrator (`download_worker` inside
`BersoDownloaderApp.start_batch_download`), and `safe_filename`.

Network I/O and subprocess I/O are modelled by making the externally
observed data (HTTP transport outcome, subprocess output lines, fetch
outcome) an explicit argument; Python dictionaries of known shape become
structures, `dict.get` becomes `Option`, and Python truthiness is made
explicit where the code relies on it.
-/

namespace Bosuoyun

/-! ## Settings Store — `ConfigManager.load_settings` (main_gui.py:206-219)

The settings file is a JSON object; its values here are strings or
integers.  `load_settings` reads the file: if it is absent, or opening or
parsing raises (`except: pass`), the default dictionary is returned;
otherwise the parsed object is returned verbatim. -/

/-- A settings value: the defaults use strings and one integer. -/
inductive SVal where
  | str (s : String)
  | int (n : Int)
deriving DecidableEq, Repr

/-- The observable state of the settings file when `load_settings` runs:
absent, present but unreadable/unparseable, or present with a JSON object
(modelled as an association list). -/
inductive SettingsFile where
  | absent
  | unreadable
  | json (d : List (String × SVal))
deriving DecidableEq, Repr

/-- The default settings dictionary from `load_settings`
(main_gui.py:214-219).  `str(Path("./downloads"))` normalises to
`"downloads"` on POSIX; only the presence of the key matters below. -/
def defaultSettings : List (String × SVal) :=
  [("download_path", SVal.str ("downloads")),
   ("ffmpeg_path", SVal.str ("")),
   ("theme", SVal.str ("light")),
   ("max_concurrent", SVal.int 1)]

/-- Embeds `ConfigManager.load_settings` (main_gui.py:206-219): if the file
exists and parses, return the parsed object as is; on a missing file or
any exception while reading/parsing, return the defaults. -/
def load_settings : SettingsFile → List (String × SVal)
  | SettingsFile.absent => defaultSettings
  | SettingsFile.unreadable => defaultSettings
  | SettingsFile.json d => d

/-- The keys of a settings dictionary. -/
def settingsKeys (d : List (String × SVal)) : List String := d.map Prod.fst

/-! ## History Ledger — `ConfigManager.add_history` (main_gui.py:259-265)

`self.history.insert(0, item)` followed by `self.history =
self.history[:100]`.  The ledger logic is agnostic to the entry type. -/

/-- Embeds `ConfigManager.add_history` (main_gui.py:259-265): insert the new
item at index 0, then keep only the first 100 entries. -/
def add_history {α : Type} (item : α) (history : List α) : List α :=
  (item :: history).take 100

/-! ## Remote Catalog Client — `PlasoAPIClient` (main_gui.py:119-179)

An HTTP exchange is modelled by its observable outcome: a transport-level
fault (timeout, connection error, any exception raised by `httpx`), or a
response with a status code and a body.  The body either fails to parse
as JSON (`response.json()` raises) or is a JSON object from which the
code reads the `code` and `obj` fields via `.get`. -/

/-- Response body as consumed by the client: `π` is the payload type of
the `obj` field. -/
inductive RespBody (π : Type) where
  | notJson (err : String)
  | json (code : Option Int) (obj : Option π)
deriving DecidableEq, Repr

/-- Outcome of one HTTP request. -/
inductive Transport (π : Type) where
  | fault (msg : String)
  | resp (status : Nat) (body : RespBody π)
deriving DecidableEq, Repr

/-- Embeds `PlasoAPIClient.get_course_list` (main_gui.py:119-135): on a 200
response whose JSON body has `code == 0`, return `obj` (defaulting to
`[]` when absent); on any other status or code, return `[]`; any
exception (transport fault, JSON parse failure) is caught and `[]` is
returned. -/
def get_course_list {α : Type} (t : Transport (List α)) : List α :=
  match t with
  | Transport.fault _ => []
  | Transport.resp status body =>
    if status = 200 then
      match body with
      | RespBody.notJson _ => []
      | RespBody.json code obj => if code = some 0 then obj.getD [] else []
    else []

/-- Embeds `PlasoAPIClient.get_task_list` (main_gui.py:137-161): same
success/failure handling as `get_course_list`; `x_file_id` and `dir_id`
only shape the request payload, not the response handling. -/
def get_task_list {α : Type} (x_file_id dir_id : String)
    (t : Transport (List α)) : List α :=
  match x_file_id, dir_id with
  | _, _ =>
    match t with
    | Transport.fault _ => []
    | Transport.resp status body =>
      if status = 200 then
        match body with
        | RespBody.notJson _ => []
        | RespBody.json code obj => if code = some 0 then obj.getD [] else []
      else []

/-- Result dictionary of `validate_token`: `success`, and optionally
`user_info` (the body's `obj`) or `message`. -/
structure VResult (π : Type) where
  success : Bool
  user_info : Option π := none
  message : Option String := none
deriving DecidableEq, Repr

/-- Embeds `PlasoAPIClient.validate_token` (main_gui.py:163-179): a 200 response
with body `code == 0` yields `{"success": True, "user_info": obj}`;
any other status or code yields `{"success": False, "message": "Token
验证失败"}`; any exception `e` (transport fault, or `response.json()`
failing) is caught and `{"success": False, "message": str(e)}` is
returned — the function never raises. -/
def validate_token {π : Type} (t : Transport π) : VResult π :=
  match t with
  | Transport.fault e => { success := false, message := some e }
  | Transport.resp status body =>
    if status = 200 then
      match body with
      | RespBody.notJson e => { success := false, message := some e }
      | RespBody.json code obj =>
        if code = some 0 then { success := true, user_info := obj }
        else { success := false, message := some ("Token 验证失败") }
    else { success := false, message := some ("Token 验证失败") }

/-! ## Media Fetcher — progress parsing in `DownloadManager.download_video`
(main_gui.py:359-383)

The subprocess's combined output is read line by line.  Per line:
* if `"Duration:"` occurs in the line, `re.search(r'Duration: (\d+):(\d+):(\d+)', line)`
  is run and on a match `duration` is set to `h*3600 + m*60 + s`;
* if `"time="` occurs in the line AND `duration` is truthy (not `None`
  and not `0`), `re.search(r'time= (\d+):(\d+):(\d+)', line)` — note the
  SPACE after `time=` in the pattern — is run and on a match
  `progress_callback((current / duration) * 100)` is invoked.

Lines are `List Char`; the two regexes are modelled exactly: a leftmost
search for the literal followed by `(\d+):(\d+):(\d+)` (greedy `\d+` is
equivalent to a maximal digit run here, since the character after the run
must be `:`, not a digit).  Progress values are rationals to keep the
arithmetic exact. -/

/-- Numeric value of a digit run. -/
def digitsVal (l : List Char) : Nat :=
  l.foldl (fun a c => a * 10 + (c.toNat - '0'.toNat)) 0

/-- Match `(\d+):(\d+):(\d+)` at the start of `s`: three nonempty digit
runs separated by colons (anything may follow). -/
def matchHMS (s : List Char) : Option (Nat × Nat × Nat) :=
  let d1 := s.takeWhile Char.isDigit
  match s.dropWhile Char.isDigit with
  | ':' :: r1 =>
    let d2 := r1.takeWhile Char.isDigit
    match r1.dropWhile Char.isDigit with
    | ':' :: r2 =>
      let d3 := r2.takeWhile Char.isDigit
      if d1 ≠ [] ∧ d2 ≠ [] ∧ d3 ≠ [] then
        some (digitsVal d1, digitsVal d2, digitsVal d3)
      else none
    | _ => none
  | _ => none

/-- Models `re.search(lit ++ r'(\d+):(\d+):(\d+)', line)`: try each start
position left to right; at each, the literal must match and then
`matchHMS` the remainder. -/
def searchFrom (lit : List Char) : List Char → Option (Nat × Nat × Nat)
  | [] => none
  | c :: rest =>
    if lit.isPrefixOf (c :: rest) then
      match matchHMS ((c :: rest).drop lit.length) with
      | some r => some r
      | none => searchFrom lit rest
    else searchFrom lit rest

/-- Python's `pat in s` substring test: `pat` occurs contiguously in
`s`. -/
def containsSub (pat : List Char) : List Char → Bool
  | [] => pat.isEmpty
  | c :: rest => pat.isPrefixOf (c :: rest) || containsSub pat rest

/-- The duration a line establishes, if any: the `"Duration:" in line`
guard followed by `re.search(r'Duration: (\d+):(\d+):(\d+)', line)`
(main_gui.py:368-372), converted to seconds. -/
def lineDuration (line : List Char) : Option Nat :=
  if containsSub ("Duration:".toList) line then
    match searchFrom ("Duration: ".toList) line with
    | some (h, m, s) => some (h * 3600 + m * 60 + s)
    | none => none
  else none

/-- The current time a line reports, if any: the `"time=" in line` guard
followed by `re.search(r'time= (\d+):(\d+):(\d+)', line)` — the pattern
has a space after `time=` (main_gui.py:374-378), converted to seconds. -/
def lineTime (line : List Char) : Option Nat :=
  if containsSub ("time=".toList) line then
    match searchFrom ("time= ".toList) line with
    | some (h, m, s) => some (h * 3600 + m * 60 + s)
    | none => none
  else none

/-- Python truthiness of the `duration` variable: `None` and `0` are
falsy, any other integer is truthy. -/
def pyTruthy : Option Nat → Bool
  | none => false
  | some 0 => false
  | some (_ + 1) => true

/-- State of the line-reading loop of `download_video`: the `duration`
variable and the arguments of the `progress_callback` invocations so
far, in order. -/
structure FetchState where
  duration : Option Nat
  calls : List ℚ
deriving DecidableEq, Repr

/-- One iteration of the loop body of `download_video`
(main_gui.py:367-382) on one output line: possibly update `duration`,
then — only when `duration` is truthy — possibly emit
`(current / duration) * 100`.  The `getD 0` is unreachable as a divisor:
`pyTruthy` guarantees `duration = some d` with `d ≠ 0`. -/
def processLine (st : FetchState) (line : List Char) : FetchState :=
  let st1 :=
    match lineDuration line with
    | some d => { st with duration := some d }
    | none => st
  if pyTruthy st1.duration then
    match lineTime line with
    | some cur =>
      { st1 with calls := st1.calls ++ [((cur : ℚ) / ((st1.duration.getD 0 : Nat) : ℚ)) * 100] }
    | none => st1
  else st1

/-- The whole line loop of `download_video` over the subprocess's output
lines, starting from `duration = None` and no callback invocations. -/
def processLines (lines : List (List Char)) : FetchState :=
  lines.foldl processLine { duration := none, calls := [] }

/-! ## `safe_filename` (main_gui.py:405-409)

`re.sub(r'[<>:"/\\|?*]', '', name)`, then `.strip()`, then `[:50]`. -/

/-- The characters removed by `safe_filename`'s `re.sub`. -/
def bannedChars : List Char := ['<', '>', ':', '"', '/', '\\', '|', '?', '*']

/-- The whitespace set of Python's `str.strip()` (ASCII part; the inputs
of interest are ASCII). -/
def isPySpace (c : Char) : Bool :=
  c = ' ' ∨ c = '\t' ∨ c = '\n' ∨ c = '\r' ∨ c = '\x0b' ∨ c = '\x0c'

/-- Python `str.strip()`: drop leading and trailing whitespace. -/
def pyStrip (l : List Char) : List Char :=
  ((l.dropWhile isPySpace).reverse.dropWhile isPySpace).reverse

/-- Embeds `safe_filename` (main_gui.py:405-409): remove the banned characters,
strip surrounding whitespace, then truncate to the first 50 characters —
in that order. -/
def safe_filename (name : List Char) : List Char :=
  (pyStrip (name.filter (fun c => !(bannedChars.contains c)))).take 50

/-- The default destination filename a chapter card offers
(main_gui.py:492): `f"{safe_filename(task_name)}.mp4"`. -/
def default_chapter_filename (task_name : List Char) : List Char :=
  safe_filename task_name ++ ".mp4".toList

/-- The per-course directory name (main_gui.py:1410):
`safe_filename(self.current_course.get("title", "课程"))`. -/
def course_dir_name (title : List Char) : List Char :=
  safe_filename title

/-! ## Download Orchestrator — `download_worker` in
`BersoDownloaderApp.start_batch_download` (main_gui.py:1978-2043)

For each selected job in order: read `recordFiles` (default `[]`); if the
list is falsy (empty) mark the job failed; otherwise take the first
record file and compute `location_path = record_file.get("location") or
record_file.get("locationPath")` (Python `or`: a missing key or an empty
string falls through); if `location_path` is falsy mark the job failed;
otherwise build the CDN manifest URL and call
`download_manager.download_video`, whose `finished_callback` increments
the success counter and appends a History Entry on success, or
increments the failure counter on failure.

`download_video`'s outcome is externally determined (subprocess), so it
is an explicit oracle `fetch : url → save_path → Option size`:
`some size` means the callback reports success with that size string.
The `self.downloading` cancellation flag is true for the whole batch in
this model (it is only cleared after the worker finishes). -/

/-- One record file, with its two possible location fields; `none`
models an absent key (`dict.get` returning `None`). -/
structure RecordFile where
  location : Option String
  locationPath : Option String
deriving DecidableEq, Repr

/-- The task data the worker reads: the chapter's name and its
`recordFiles` list. -/
structure TaskData where
  name : Option String
  recordFiles : List RecordFile
deriving DecidableEq, Repr

/-- A Download Job of the batch: the chapter and the destination path
the card holds. -/
structure Job where
  task_data : TaskData
  save_path : String
deriving DecidableEq, Repr

/-- Python truthiness of an optional string: `None` and `""` are falsy. -/
def strTruthy : Option String → Bool
  | none => false
  | some s => !(s == "")

/-- Python `a or b` on the two optional location fields
(main_gui.py:2000). -/
def pyOr (a b : Option String) : Option String :=
  if strTruthy a then a else b

/-- A History Entry as written by `finished_callback`
(main_gui.py:2020-2025): chapter name (default `"未知"`), save path,
timestamp, size message. -/
structure HistEntry where
  title : String
  path : String
  date : String
  size : String
deriving DecidableEq, Repr

/-- The CDN manifest URL template (main_gui.py:2008):
`f"https://filecdn.plaso.com/liveclass/plaso/{location_path}/a1/a.m3u8"`. -/
def m3u8_url (location_path : String) : String :=
  "https://filecdn.plaso.com/liveclass/plaso/" ++ location_path ++ "/a1/a.m3u8"

/-- Observable state of one batch run: the two counters, the arguments
of every `download_video` invocation in order, and the History Ledger. -/
structure BatchState where
  completed_count : Nat
  failed_count : Nat
  calls : List (String × String)
  history : List HistEntry
deriving DecidableEq, Repr

/-- One iteration of the `download_worker` loop (main_gui.py:1981-2041)
on one job.  `fetch` is the outcome of `download_video` for a given URL
and save path (`some size` = success); `now` is the formatted current
timestamp. -/
def processJob (fetch : String → String → Option String) (now : String)
    (st : BatchState) (job : Job) : BatchState :=
  match job.task_data.recordFiles with
  | [] => { st with failed_count := st.failed_count + 1 }
  | record_file :: _ =>
    let location_path := pyOr record_file.location record_file.locationPath
    if strTruthy location_path then
      let url := m3u8_url (location_path.getD (""))
      let st1 := { st with calls := st.calls ++ [(url, job.save_path)] }
      match fetch url job.save_path with
      | some size =>
        { st1 with
          completed_count := st1.completed_count + 1,
          history := add_history
            { title := job.task_data.name.getD ("未知"),
              path := job.save_path, date := now, size := size }
            st1.history }
      | none => { st1 with failed_count := st1.failed_count + 1 }
    else { st with failed_count := st.failed_count + 1 }

/-- The whole `download_worker` loop over the batch's jobs, starting
from zeroed counters and the ledger `history0`. -/
def download_worker (fetch : String → String → Option String)
    (now : String) (history0 : List HistEntry) (jobs : List Job) : BatchState :=
  jobs.foldl (processJob fetch now)
    { completed_count := 0, failed_count := 0, calls := [], history := history0 }

/-! ## Theorems -/

/-- C1.  The spec's progress-parsing example: stream `Duration: 00:10:00`
then `time=00:05:00` should invoke the progress callback with 50.0.  On
the code as written it does not: the guard checks for the substring
`time=` but the regex pattern is `time= (\d+):(\d+):(\d+)` with a space
after `time=`, which the line `time=00:05:00` (ffmpeg's actual output
format) never contains.  Evaluating the embedded loop at this input: the
duration is parsed (600 s) but the callback list stays empty. -/
theorem progress_dead_on_ffmpeg_time_line :
    processLines ["Duration: 00:10:00".toList, "time=00:05:00".toList] =
      { duration := some 600, calls := [] } := by
  rfl

/-- The progress machinery does fire when the line carries a space after
`time=` — the only shape the pattern `time= (\d+):(\d+):(\d+)` accepts —
confirming that the space in the pattern is what kills the example
above. -/
theorem progress_fifty_with_space_time_line :
    processLines ["Duration: 00:10:00".toList, "time= 00:05:00".toList] =
      { duration := some 600, calls := [50] } := by
  have h : processLines ["Duration: 00:10:00".toList, "time= 00:05:00".toList] =
      { duration := some 600, calls := [(((300 : ℕ) : ℚ) / ((600 : ℕ) : ℚ)) * 100] } := rfl
  rw [h]
  norm_num

/-- C2 counterexample.  A settings file holding the JSON object `{}` is
returned verbatim by `load_settings`: the result has no keys at all, so
the four required keys are not filled in. -/
theorem load_settings_missing_keys_counterexample :
    settingsKeys (load_settings (SettingsFile.json [])) = [] ∧
    ¬ "theme" ∈ settingsKeys (load_settings (SettingsFile.json [])) := by
  exact ⟨rfl, by simp [load_settings, settingsKeys]⟩

/-- C2 amended.  `load_settings` returns the default dictionary — which
does carry the four keys `download_path`, `ffmpeg_path`, `theme`,
`max_concurrent` — only when the settings file is absent or unreadable;
when the file parses, its object is returned verbatim, with no defaults
filled in for missing keys. -/
theorem load_settings_defaults_only_when_file_unused :
    load_settings SettingsFile.absent = defaultSettings ∧
    load_settings SettingsFile.unreadable = defaultSettings ∧
    (∀ d, load_settings (SettingsFile.json d) = d) ∧
    settingsKeys defaultSettings =
      ["download_path", "ffmpeg_path", "theme", "max_concurrent"] :=
  ⟨rfl, rfl, fun _ => rfl, rfl⟩

/-- C3 counterexample.  A transport-level fault (e.g. a timeout) is NOT
propagated to the caller: the `except Exception` in `validate_token`
catches it and returns the ordinary failure dictionary
`{"success": False, "message": str(e)}`. -/
theorem validate_token_fault_returns_value :
    validate_token (Transport.fault ("Connection timed out") : Transport String) =
      { success := false, user_info := none, message := some ("Connection timed out") } :=
  rfl

/-- C3 amended.  `validate_token` never raises: a probe that completes
but is rejected (non-200 status, or body code ≠ 0, or unparseable body)
yields an invalid result, and a transport fault is likewise caught and
yields an invalid result carrying the fault text.  Success holds exactly
for a 200 response whose JSON body has code 0. -/
theorem validate_token_success_iff (π : Type) (t : Transport π) :
    ((validate_token t).success = true ↔
      ∃ obj, t = Transport.resp 200 (RespBody.json (some 0) obj)) ∧
    (∀ e, (validate_token (Transport.fault e) : VResult π) =
      { success := false, user_info := none, message := some e }) := by
  constructor
  · cases t with
    | fault e => simp [validate_token]
    | resp status body =>
      by_cases hs : status = 200
      · subst hs
        cases body with
        | notJson e => simp [validate_token]
        | json code obj =>
          by_cases hc : code = some 0
          · subst hc
            simp [validate_token]
          · simp [validate_token, hc]
      · simp [validate_token, hs, Ne.symm hs]
  · intro e
    rfl

/-- Witness for `validate_token_success_iff` at a concrete accepted
probe and a concrete rejected one. -/
theorem validate_token_success_iff_witness :
    (validate_token (Transport.resp 200 (RespBody.json (some 0) (some ("u"))))).success
      = true ∧
    (validate_token (Transport.fault ("timeout") : Transport String)).success = false :=
  ⟨(validate_token_success_iff String _).1.mpr ⟨some ("u"), rfl⟩,
   by rw [(validate_token_success_iff String (Transport.fault ("timeout"))).2 ("timeout")]⟩

/-- Inserting one entry into a full ledger keeps the first 99 old
entries: `(item :: h).take 100 = item :: h.take 99` definitionally. -/
lemma add_history_eq_cons_take {α : Type} (item : α) (h : List α) :
    add_history item h = item :: h.take 99 := rfl

/-- Length of a ledger built by repeated insertion: capped at 100. -/
lemma length_foldl_add_history {α : Type} (es : List α) (acc : List α)
    (hacc : acc.length ≤ 100) :
    (es.foldl (fun a e => add_history e a) acc).length =
      min (acc.length + es.length) 100 := by
  induction es generalizing acc with
  | nil => simp; omega
  | cons e es ih =>
    have h1 : (add_history e acc).length = min (acc.length + 1) 100 := by
      simp [add_history, List.length_take]
      omega
    simp only [List.foldl_cons]
    rw [ih (add_history e acc) (by rw [h1]; omega), h1]
    simp only [List.length_cons]
    omega

/-- The head of a ledger built by repeated insertion is the last entry
inserted. -/
lemma head?_foldl_add_history {α : Type} (es : List α) (acc : List α)
    (hne : es ≠ []) :
    (es.foldl (fun a e => add_history e a) acc).head? = es.getLast? := by
  induction es generalizing acc with
  | nil => cases hne rfl
  | cons e es ih =>
    cases es with
    | nil => rfl
    | cons e2 es2 =>
      have hstep : (e :: e2 :: es2).foldl (fun a x => add_history x a) acc =
          (e2 :: es2).foldl (fun a x => add_history x a) (add_history e acc) := rfl
      rw [hstep, ih (add_history e acc) (by simp), List.getLast?_cons_cons]

/-- C5.  On a ledger of exactly 100 entries, `add_history` yields
`item :: h.dropLast`: 100 entries again, the new entry at index 0, the
previous entries shifted by one unchanged, the previous last entry
evicted; and folding 101 insertions into an empty ledger leaves exactly
100 entries with the newest (the last inserted) at index 0. -/
theorem add_history_cap_and_shift {α : Type} (h : List α) (item : α)
    (hlen : h.length = 100) (es : List α) (hes : es.length = 101) :
    add_history item h = item :: h.dropLast ∧
    (add_history item h).length = 100 ∧
    (es.foldl (fun acc e => add_history e acc) []).length = 100 ∧
    (es.foldl (fun acc e => add_history e acc) []).head? = es.getLast? := by
  have h2 : h.take 99 = h.dropLast := by
    rw [List.dropLast_eq_take, hlen]
  refine ⟨by rw [add_history_eq_cons_take, h2], ?_, ?_, ?_⟩
  · rw [add_history_eq_cons_take, h2]
    simp [List.length_dropLast, hlen]
  · rw [length_foldl_add_history es [] (by simp), hes]
    simp
  · refine head?_foldl_add_history es [] ?_
    intro hn
    rw [hn] at hes
    simp at hes

/-- Witness for `add_history_cap_and_shift`: a concrete full ledger of
100 entries and a concrete run of 101 insertions. -/
theorem add_history_cap_and_shift_witness :
    add_history 999 (List.range 100) = 999 :: (List.range 100).dropLast ∧
    ((List.range 101).foldl (fun acc e => add_history e acc) []).length = 100 ∧
    ((List.range 101).foldl (fun acc e => add_history e acc) []).head? =
      (List.range 101).getLast? := by
  have h := add_history_cap_and_shift (List.range 100) 999 (by simp)
    (List.range 101) (by simp)
  exact ⟨h.1, h.2.2.1, h.2.2.2⟩

/-- C4.  A job whose chapter has an empty `recordFiles` list, or whose
first record file has neither a `location` nor a `locationPath` key, is
marked failed — the failure counter increments and nothing else changes:
in particular no `download_video` invocation is recorded — and the fold
proceeds to the next job. -/
theorem job_without_playable_record_fails_without_fetch
    (fetch : String → String → Option String) (now : String)
    (st : BatchState) (job : Job)
    (hbad : job.task_data.recordFiles = [] ∨
      ∃ rf rest, job.task_data.recordFiles = rf :: rest ∧
        rf.location = none ∧ rf.locationPath = none) :
    processJob fetch now st job =
      { st with failed_count := st.failed_count + 1 } := by
  rcases hbad with hnil | ⟨rf, rest, hrf, hl, hlp⟩
  · unfold processJob
    rw [hnil]
  · unfold processJob
    rw [hrf]
    simp [pyOr, strTruthy, hl, hlp]

/-- Witness for `job_without_playable_record_fails_without_fetch`: a
batch state and one chapter with no record files. -/
theorem job_without_playable_record_fails_without_fetch_witness :
    processJob (fun _ _ => some ("1.0MB")) "2026-10-12 00:00"
      { completed_count := 0, failed_count := 0, calls := [], history := [] }
      { task_data := { name := some ("Ch2"), recordFiles := [] }, save_path := "out.mp4" } =
      { completed_count := 0, failed_count := 1, calls := [], history := [] } := by
  have h := job_without_playable_record_fails_without_fetch
    (fun _ _ => some ("1.0MB")) "2026-10-12 00:00"
    { completed_count := 0, failed_count := 0, calls := [], history := [] }
    { task_data := { name := some ("Ch2"), recordFiles := [] }, save_path := "out.mp4" }
    (Or.inl rfl)
  simpa using h

/-- C8.  For a job whose effective location path is `p` (nonempty), the
URL recorded for the `download_video` invocation is exactly the fixed
CDN template `https://filecdn.plaso.com/liveclass/plaso/` ++ p ++
`/a1/a.m3u8`, paired with the job's save path — whatever the fetch
outcome. -/
theorem fetch_url_is_cdn_template
    (fetch : String → String → Option String) (now : String) (st : BatchState)
    (job : Job) (rf : RecordFile) (rest : List RecordFile) (p : String)
    (hrf : job.task_data.recordFiles = rf :: rest)
    (hp : pyOr rf.location rf.locationPath = some p) (hne : p ≠ "") :
    (processJob fetch now st job).calls =
      st.calls ++
        [("https://filecdn.plaso.com/liveclass/plaso/" ++ p ++ "/a1/a.m3u8",
          job.save_path)] := by
  unfold processJob
  rw [hrf]
  simp only [hp]
  have htr : strTruthy (some p) = true := by
    simp [strTruthy, hne]
  rw [htr]
  simp only [if_true, Option.getD_some]
  cases fetch (m3u8_url p) job.save_path with
  | some size => simp [m3u8_url]
  | none => simp [m3u8_url]

/-- Witness for `fetch_url_is_cdn_template` at a concrete job with
location path `L1`. -/
theorem fetch_url_is_cdn_template_witness :
    (processJob (fun _ _ => none) "2026-10-12 00:00"
      { completed_count := 0, failed_count := 0, calls := [], history := [] }
      { task_data :=
          { name := some ("Ch1"),
            recordFiles := [{ location := some ("L1"), locationPath := none }] },
        save_path := "out.mp4" }).calls =
      [("https://filecdn.plaso.com/liveclass/plaso/L1/a1/a.m3u8", "out.mp4")] := by
  have h := fetch_url_is_cdn_template (fun _ _ => none) "2026-10-12 00:00"
    { completed_count := 0, failed_count := 0, calls := [], history := [] }
    { task_data :=
        { name := some ("Ch1"),
          recordFiles := [{ location := some ("L1"), locationPath := none }] },
      save_path := "out.mp4" }
    { location := some ("L1"), locationPath := none } [] "L1" rfl rfl (by decide)
  simpa using h

/-- If the `duration` variable is still `None` and no remaining line
parses a duration, the loop leaves the state untouched: the time branch
is guarded by the truthiness of `duration`. -/
lemma foldl_processLine_no_duration (lines : List (List Char))
    (st : FetchState) (hst : st.duration = none)
    (hl : ∀ l ∈ lines, lineDuration l = none) :
    lines.foldl processLine st = st := by
  induction lines with
  | nil => rfl
  | cons l ls ih =>
    have hstep : (l :: ls).foldl processLine st = ls.foldl processLine (processLine st l) :=
      rfl
    have hpl : processLine st l = st := by
      simp [processLine, hl l (by simp), hst, pyTruthy]
    rw [hstep, hpl]
    exact ih fun l2 hl2 => hl l2 (by simp [hl2])

/-- C6.  No progress callback fires before a duration line has been
parsed: if no line of the stream parses as a duration line, the loop
invokes the progress callback zero times, whatever time lines occur. -/
theorem no_progress_before_duration (lines : List (List Char))
    (hl : ∀ l ∈ lines, lineDuration l = none) :
    (processLines lines).calls = [] := by
  unfold processLines
  rw [foldl_processLine_no_duration lines _ rfl hl]

/-- Witness for `no_progress_before_duration`: a stream of two time
lines (both spacings) and no duration line yields no callbacks. -/
theorem no_progress_before_duration_witness :
    (processLines ["time=00:05:00".toList, "time= 00:03:00".toList]).calls = [] :=
  no_progress_before_duration
    ["time=00:05:00".toList, "time= 00:03:00".toList] (by decide)

/-- If every line's parsed duration is absent or zero, the `duration`
variable stays `None` or `0` — both falsy — so the callback list never
grows. -/
lemma foldl_processLine_zero_duration (lines : List (List Char))
    (st : FetchState)
    (hst : st.duration = none ∨ st.duration = some 0)
    (hl : ∀ l ∈ lines, lineDuration l = none ∨ lineDuration l = some 0) :
    (lines.foldl processLine st).calls = st.calls := by
  induction lines generalizing st with
  | nil => rfl
  | cons l ls ih =>
    have hstep : (l :: ls).foldl processLine st = ls.foldl processLine (processLine st l) :=
      rfl
    have hd := hl l (by simp)
    have hst1 : (processLine st l).duration = none ∨ (processLine st l).duration = some 0 := by
      rcases hd with h0 | h0 <;> rcases hst with h1 | h1 <;>
        simp [processLine, h0, h1, pyTruthy]
    have hcalls : (processLine st l).calls = st.calls := by
      rcases hd with h0 | h0 <;> rcases hst with h1 | h1 <;>
        simp [processLine, h0, h1, pyTruthy]
    rw [hstep, ih (processLine st l) hst1 fun l2 hl2 => hl l2 (by simp [hl2]), hcalls]

/-- C9.  The progress computation never divides by zero: a parsed
duration of 0 seconds (e.g. a `Duration: 00:00:00` line) is falsy, so it
is treated like no duration at all — for a stream all of whose duration
lines parse to 0, the division is never reached and no progress callback
fires. -/
theorem zero_duration_no_progress (lines : List (List Char))
    (hl : ∀ l ∈ lines, lineDuration l = none ∨ lineDuration l = some 0) :
    (processLines lines).calls = [] := by
  unfold processLines
  rw [foldl_processLine_zero_duration lines _ (Or.inl rfl) hl]

/-- Witness for `zero_duration_no_progress`: a `Duration: 00:00:00` line
followed by a time line in the only shape the time pattern accepts still
produces no callback. -/
theorem zero_duration_no_progress_witness :
    (processLines ["Duration: 00:00:00".toList, "time= 00:05:00".toList]).calls = [] :=
  zero_duration_no_progress
    ["Duration: 00:00:00".toList, "time= 00:05:00".toList] (by decide)

/-- C7.  Both listing calls return `[]` on a transport fault, a non-200
status, an unparseable body, or a body code ≠ 0 — no exception reaches
the caller (the embedded functions are total) — and a 200 response with
code 0 and payload `xs` returns `xs`. -/
theorem listing_empty_on_failure_obj_on_success (α : Type)
    (x_file_id dir_id m e : String) (s : Nat) (b : RespBody (List α))
    (c : Option Int) (o : Option (List α)) (xs : List α) :
    (get_course_list (Transport.fault m : Transport (List α)) = [] ∧
      get_task_list x_file_id dir_id (Transport.fault m : Transport (List α)) = []) ∧
    (s ≠ 200 → get_course_list (Transport.resp s b) = [] ∧
      get_task_list x_file_id dir_id (Transport.resp s b) = []) ∧
    (get_course_list (Transport.resp s (RespBody.notJson e) : Transport (List α)) = [] ∧
      get_task_list x_file_id dir_id
        (Transport.resp s (RespBody.notJson e) : Transport (List α)) = []) ∧
    (c ≠ some 0 → get_course_list (Transport.resp s (RespBody.json c o)) = [] ∧
      get_task_list x_file_id dir_id (Transport.resp s (RespBody.json c o)) = []) ∧
    (get_course_list (Transport.resp 200 (RespBody.json (some 0) (some xs))) = xs ∧
      get_task_list x_file_id dir_id
        (Transport.resp 200 (RespBody.json (some 0) (some xs))) = xs) := by
  refine ⟨⟨rfl, rfl⟩, ?_, ?_, ?_, ⟨rfl, rfl⟩⟩
  · intro hs
    constructor <;> simp [get_course_list, get_task_list, hs]
  · constructor <;> simp [get_course_list, get_task_list]
  · intro hc
    constructor <;> simp [get_course_list, get_task_list, hc]

/-- Witness for `listing_empty_on_failure_obj_on_success`: a rejected
status, a rejected body code, and an accepted response, all concrete. -/
theorem listing_empty_on_failure_obj_on_success_witness :
    get_course_list (Transport.resp 404 (RespBody.json (some 0) (some [7])) :
      Transport (List Nat)) = [] ∧
    get_course_list (Transport.resp 200 (RespBody.json (some 1) (some [7])) :
      Transport (List Nat)) = [] ∧
    get_task_list ("A1") ("D1") (Transport.resp 200 (RespBody.json (some 0) (some [7])) :
      Transport (List Nat)) = [7] := by
  have h1 := listing_empty_on_failure_obj_on_success Nat ("A1") ("D1") ("m") ("e") 404
    (RespBody.json (some 0) (some [7])) (some 0) (some [7]) [7]
  have h2 := listing_empty_on_failure_obj_on_success Nat ("A1") ("D1") ("m") ("e") 200
    (RespBody.json (some 1) (some [7])) (some 1) (some [7]) [7]
  exact ⟨(h1.2.1 (by decide)).1, (h2.2.2.2.1 (by decide)).1, h2.2.2.2.2.2⟩

/-- The head surviving a `dropWhile p` never satisfies `p`. -/
lemma head?_dropWhile_not {α : Type} (p : α → Bool) (l : List α) (c : α)
    (h : (l.dropWhile p).head? = some c) : p c = false := by
  induction l with
  | nil => simp [List.dropWhile] at h
  | cons a l ih =>
    rw [List.dropWhile_cons] at h
    by_cases hp : p a
    · rw [if_pos hp] at h
      exact ih h
    · rw [if_neg hp] at h
      simp only [List.head?_cons, Option.some.injEq] at h
      rw [← h]
      exact Bool.not_eq_true _ ▸ eq_false_of_ne_true hp

/-- Stripping trailing whitespace only removes a suffix: the stripped
string is a front segment of the left-stripped string. -/
lemma pyStrip_front_of_lstrip (l : List Char) :
    pyStrip l <+: l.dropWhile isPySpace := by
  unfold pyStrip
  have h1 : ((l.dropWhile isPySpace).reverse.dropWhile isPySpace) <:+
      (l.dropWhile isPySpace).reverse := List.dropWhile_suffix _
  rw [← List.reverse_reverse ((l.dropWhile isPySpace).reverse.dropWhile isPySpace)] at h1
  exact List.reverse_suffix.mp h1

/-- The first character of a stripped string is never whitespace. -/
lemma pyStrip_head_not_space (l : List Char) (c : Char)
    (h : (pyStrip l).head? = some c) : isPySpace c = false := by
  obtain ⟨t, ht⟩ := pyStrip_front_of_lstrip l
  apply head?_dropWhile_not isPySpace l c
  rw [← ht, List.head?_append, h]
  rfl

/-- A nonempty truncation has the same head as the original list. -/
lemma head?_take_eq {α : Type} (l : List α) (n : Nat) (c : α)
    (h : (l.take n).head? = some c) : l.head? = some c := by
  cases n with
  | zero => simp at h
  | succ n =>
    cases l with
    | nil => simp at h
    | cons a l => simpa using h

/-- C10 counterexample.  `safe_filename` strips BEFORE truncating, so
the 50-character cut can end on whitespace: for the 51-character input
`"a"*49 ++ " b"` (no banned characters, no surrounding whitespace) the
result is `"a"*49 ++ " "` — its last character is a space. -/
theorem safe_filename_trailing_space_counterexample :
    (safe_filename (List.replicate 49 'a' ++ [' ', 'b'])).getLast? = some ' ' ∧
    isPySpace ' ' = true := ⟨rfl, rfl⟩

/-- C10 amended.  For every input, `safe_filename` returns at most 50
characters, none of them in `< > : " / \ | ? *`, and with no LEADING
whitespace; trailing whitespace can survive when the truncation cuts
inside the stripped name (strip happens before `[:50]`).  The default
chapter filename is the sanitized name followed by `.mp4`, and the
per-course directory name is exactly the sanitized course title. -/
theorem safe_filename_sanitized (name : List Char) :
    (safe_filename name).length ≤ 50 ∧
    (∀ c ∈ safe_filename name, ¬ c ∈ bannedChars) ∧
    (∀ c, (safe_filename name).head? = some c → isPySpace c = false) ∧
    safe_filename name <+: default_chapter_filename name ∧
    course_dir_name name = safe_filename name := by
  refine ⟨?_, ?_, ?_, ⟨".mp4".toList, rfl⟩, rfl⟩
  · have h : (safe_filename name).length =
        min 50 (pyStrip (name.filter fun c => !(bannedChars.contains c))).length := by
      simp [safe_filename, List.length_take]
    omega
  · intro c hc
    have hc1 : c ∈ pyStrip (name.filter fun c => !(bannedChars.contains c)) :=
      List.mem_of_mem_take hc
    have hc2 : c ∈ name.filter (fun c => !(bannedChars.contains c)) :=
      ( List.dropWhile_suffix isPySpace).subset
        ((pyStrip_front_of_lstrip _).subset hc1)
    have hb := List.of_mem_filter hc2
    simpa using hb
  · intro c hc
    simp only [safe_filename] at hc
    exact pyStrip_head_not_space _ c (head?_take_eq _ 50 c hc)

/-- Witness for `safe_filename_sanitized` on a concrete course title:
the head hypothesis is discharged by computing the sanitized form. -/
theorem safe_filename_sanitized_witness :
    (safe_filename (" My:Course/01 ".toList)).length ≤ 50 ∧
    isPySpace 'M' = false := by
  have h := safe_filename_sanitized (" My:Course/01 ".toList)
  exact ⟨h.1, h.2.2.1 'M' rfl⟩

end Bosuoyun
